import Mathlib

/-!
# cmd/helm/install.go

A shallow embedding of the `install` sub-command of the helm client:
`runInstall`, `printRelease` and `setupInstallEnv`, together with the
package-level variables they read and write.

Package-level variables, `helm.Config.ServAddr`, standard output and the
requests sent through `helm.InstallRelease` are fields of an explicit `World`
that every function takes and returns.  A Go run-time panic (nil pointer
dereference, index out of range) is the `panicked` outcome of a `Result`.
-/

namespace Helm

/-! ## Constants -/

/-- The constant `hostEnvVar` of install.go. -/
def hostEnvVar : String := "TILLER_HOST"

/-- The constant `defaultHost` of install.go. -/
def defaultHost : String := ":44134"

/-! ## Data model -/

/-- Modelled from the spec: the values of Go's `error` interface that this
command can surface.  The spec's error taxonomy has `InvalidArgumentCount`
(carrying the expected count, the actual count and a human label) and the
error of the external install call; `wrapped` is an error that went through
the error-wrapping step.  Go's `nil` error is `none : Option Error`. -/
inductive Error where
  | invalidArgumentCount (expected actual : Nat) (what : String)
  | remote (msg : String)
  | wrapped (inner : Error)
  deriving DecidableEq, Repr

/-- A `google.protobuf.Timestamp` (seconds and nanoseconds). -/
structure Timestamp where
  seconds : Int
  nanos : Int
  deriving DecidableEq, Repr

/-- Modelled from the spec: the release status, which the spec calls an enum;
its declaration is in pkg/proto/hapi/release, not in install.go.  The protobuf
enum code is kept as a number. -/
structure Status where
  code : Nat
  deriving DecidableEq, Repr

/-- Modelled from the spec: `release.Info`, declared in pkg/proto/hapi/release;
install.go reads `LastDeployed` and `Status`.  Both are message-typed fields,
pointers in the generated Go code, so each may be nil. -/
structure Info where
  lastDeployed : Option Timestamp
  status : Option Status
  deriving DecidableEq, Repr

/-- Modelled from the spec: chart `Metadata`, declared in pkg/proto/hapi/chart;
install.go reads `Name` and `Version`. -/
structure Metadata where
  name : String
  version : String
  deriving DecidableEq, Repr

/-- Modelled from the spec: `chart.Chart`, declared in pkg/proto/hapi/chart.
`Metadata` is a message-typed field, a pointer in the generated Go code, so it
may be nil. -/
structure Chart where
  metadata : Option Metadata
  deriving DecidableEq, Repr

/-- Modelled from the spec: `release.Release`, declared in
pkg/proto/hapi/release.  `Info` and `Chart` are message-typed fields, pointers
in the generated Go code, so each may be nil. -/
structure Release where
  name : String
  info : Option Info
  chart : Option Chart
  manifest : String
  deriving DecidableEq, Repr

/-- Modelled from the spec: the response of `helm.InstallRelease`; its release
field may be nil even when the call reports success. -/
structure InstallReleaseResponse where
  release : Option Release
  deriving DecidableEq, Repr

/-- The nil-safe getter `(*InstallReleaseResponse).GetRelease` of the generated
protobuf code: nil for a nil response, the release field otherwise. -/
def GetRelease : Option InstallReleaseResponse → Option Release
  | none => none
  | some res => res.release

/-- One call of `helm.InstallRelease`, as the outside world sees it: the two
arguments and the value of `helm.Config.ServAddr` at the moment of the call. -/
structure Request where
  chart : String
  dryRun : Bool
  servAddr : String
  deriving DecidableEq, Repr

/-- The package-level state of the command and the effects it has had so far.
`servAddrWrites` and `requests` are ghost logs (oldest first): every assignment
to `helm.Config.ServAddr` and every call of `helm.InstallRelease`. -/
structure World where
  installArg : String
  tillerHost : String
  installDryRun : Bool
  flagVerbose : Bool
  servAddr : String
  servAddrWrites : List String
  requests : List Request
  stdout : String
  deriving DecidableEq, Repr

/-- The collaborators of install.go that live outside the file: the install
client `helm.InstallRelease` (a Go function returning a response pointer and an
error, here a function of its arguments and of `helm.Config.ServAddr`);
`formatTime`, the text that `time.Unix(sec, nsec).Format(time.ANSIC)` gives for
a timestamp, which depends on the local time zone; and `statusString`, the text
that `%s` prints for the status pointer (nil included: `fmt` does not panic on
a nil receiver of a `String` method). -/
structure Collaborators where
  InstallRelease : String → Bool → String → Option InstallReleaseResponse × Option Error
  formatTime : Timestamp → String
  statusString : Option Status → String

/-- How a Go function call ends: it returns a value, or it panics. Either way
the world it leaves behind is kept. -/
inductive Result (α : Type) where
  | returned (val : α) (w : World)
  | panicked (w : World)
  deriving DecidableEq, Repr

/-- The world a call leaves behind. -/
def Result.world {α : Type} : Result α → World
  | .returned _ w => w
  | .panicked w => w

/-! ## Helpers of the package that are outside install.go -/

/-- Modelled from the spec: `checkArgsLength`, defined elsewhere in package
main.  The spec's ArgumentValidator succeeds iff the actual count equals the
expected count, and otherwise fails with an `InvalidArgumentCount` error that
carries the expected count, the actual count and the label. -/
def checkArgsLength (expectedNum actualNum : Nat) (requiredArg : String) : Option Error :=
  if actualNum ≠ expectedNum then
    some (Error.invalidArgumentCount expectedNum actualNum requiredArg)
  else
    none

/-- Modelled from the spec: `prettyError`, defined elsewhere in package main.
The spec's error-wrapping step wraps the remote error in a presentation layer
and surfaces it unchanged in substance. -/
def prettyError (err : Error) : Error :=
  Error.wrapped err

/-- Modelled from the spec: `timeconv.String`, defined in pkg/timeconv and not
in install.go, gives the formatted deployment timestamp.  It is handed the
pointer `rel.Info.LastDeployed` and reads its fields
(`time.Unix(ts.Seconds, int64(ts.Nanos))`), so on a nil pointer it panics:
`none` is that panic. -/
def timeconvString (c : Collaborators) : Option Timestamp → Option String
  | none => none
  | some ts => some (c.formatTime ts)

/-! ## Output -/

/-- Writing `s` to standard output (`fmt.Printf` with the format already
expanded, `fmt.Println` with the newline already appended). -/
def World.print (w : World) (s : String) : World :=
  { w with stdout := w.stdout ++ s }

/-! ## install.go -/

/-- The function `setupInstallEnv`; `getenv` is `os.Getenv` at the time of the call. -/
def setupInstallEnv (getenv : String → String) (w : World) : World :=
  let tillerHost :=
    if w.tillerHost = "" then
      let fromEnv := getenv hostEnvVar
      if fromEnv = "" then defaultHost else fromEnv
    else
      w.tillerHost
  { w with
    tillerHost := tillerHost
    servAddr := tillerHost
    servAddrWrites := w.servAddrWrites ++ [tillerHost] }

/-- The function `printRelease`.  The verbose branch reads `rel.Info`,
`rel.Chart` and `rel.Chart.Metadata` by plain field access, which panics on a
nil pointer, and passes `rel.Info.LastDeployed` to `timeconv.String` as it is;
the arguments of a `Printf` are evaluated before it prints. -/
def printRelease (c : Collaborators) (w : World) : Option Release → Result Unit
  | none => .returned () w
  | some rel =>
    if w.flagVerbose then
      let w1 := w.print ("NAME:   " ++ rel.name ++ "\n")
      match rel.info with
      | none => .panicked w1
      | some info =>
        match timeconvString c info.lastDeployed with
        | none => .panicked w1
        | some deployed =>
          let w2 := w1.print ("INFO:   " ++ deployed ++ " "
            ++ c.statusString info.status ++ "\n")
          match rel.chart with
          | none => .panicked w2
          | some chart =>
            match chart.metadata with
            | none => .panicked w2
            | some md =>
              let w3 := w2.print ("CHART:  " ++ md.name ++ " " ++ md.version ++ "\n")
              let w4 := w3.print ("MANIFEST: " ++ rel.manifest ++ "\n")
              .returned () w4
    else
      .returned () (w.print (rel.name ++ "\n"))

/-- The function `runInstall` (its `cmd` parameter is not used by the body).
The returned value is Go's `error`: `none` is nil. -/
def runInstall (c : Collaborators) (getenv : String → String) (w : World)
    (args : List String) : Result (Option Error) :=
  match checkArgsLength 1 args.length "chart name" with
  | some err => .returned (some err) w
  | none =>
    match args with
    | [] => .panicked w
    | arg0 :: _ =>
      let w1 := setupInstallEnv getenv { w with installArg := arg0 }
      let w2 := { w1 with
        requests := w1.requests ++ [Request.mk w1.installArg w1.installDryRun w1.servAddr] }
      match c.InstallRelease w1.installArg w1.installDryRun w1.servAddr with
      | (_, some err) => .returned (some (prettyError err)) w2
      | (res, none) =>
        match printRelease c w2 (GetRelease res) with
        | .returned _ w3 => .returned none w3
        | .panicked w3 => .panicked w3

/-- The number of line breaks in a text. -/
def lineBreaks (s : String) : Nat :=
  s.data.count (Char.ofNat 10)

/-- The world in which `runInstall` calls `helm.InstallRelease`: the chart
reference is stored, the endpoint is resolved and published. -/
def worldAtDispatch (getenv : String → String) (w : World) (arg0 : String) : World :=
  setupInstallEnv getenv { w with installArg := arg0 }

/-- The world right after the call of `helm.InstallRelease`: the request is
logged. -/
def worldAfterDispatch (getenv : String → String) (w : World) (arg0 : String) : World :=
  { worldAtDispatch getenv w arg0 with
    requests := w.requests ++
      [Request.mk arg0 w.installDryRun (worldAtDispatch getenv w arg0).servAddr] }

/-! ## Concrete inputs -/

/-- A fresh process: no flag given, nothing printed, nothing sent. -/
def freshWorld : World :=
  { installArg := "", tillerHost := "", installDryRun := false, flagVerbose := false,
    servAddr := "", servAddrWrites := [], requests := [], stdout := "" }

/-- A fresh process started with the verbosity flag. -/
def verboseWorld : World :=
  { freshWorld with flagVerbose := true }

/-- An environment in which no variable is set. -/
def emptyEnv : String → String :=
  fun _ => ""

/-- An environment in which only `TILLER_HOST` is set, to `host`. -/
def envWithHost (host : String) : String → String :=
  fun name => if name = hostEnvVar then host else ""

/-- A release with every sub-record present: deployed at the Unix epoch, status
code 1 (`DEPLOYED`). -/
def fullRelease : Release :=
  { name := "myapp"
    info := some { lastDeployed := some { seconds := 0, nanos := 0 },
                   status := some { code := 1 } }
    chart := some { metadata := some { name := "mychart", version := "1.0.0" } }
    manifest := "kind: Pod" }

/-- A release whose `Info` pointer is nil. -/
def releaseWithoutInfo : Release :=
  { fullRelease with info := none }

/-- A release whose `Chart` pointer is nil. -/
def releaseWithoutChart : Release :=
  { fullRelease with chart := none }

/-- A release whose chart has a nil `Metadata` pointer. -/
def releaseWithoutMetadata : Release :=
  { fullRelease with chart := some { metadata := none } }

/-- A release whose `Info` is present and whose `LastDeployed` pointer is nil. -/
def releaseWithoutLastDeployed : Release :=
  { fullRelease with info := some { lastDeployed := none, status := some { code := 1 } } }

/-- The three-letter day names of `time.ANSIC`, Sunday first. -/
def weekdayName : Nat → String
  | 0 => "Sun" | 1 => "Mon" | 2 => "Tue" | 3 => "Wed" | 4 => "Thu" | 5 => "Fri" | _ => "Sat"

/-- The three-letter month names of `time.ANSIC`. -/
def monthName : Nat → String
  | 1 => "Jan" | 2 => "Feb" | 3 => "Mar" | 4 => "Apr" | 5 => "May" | 6 => "Jun"
  | 7 => "Jul" | 8 => "Aug" | 9 => "Sep" | 10 => "Oct" | 11 => "Nov" | _ => "Dec"

/-- Left padding of `s` with `fill` up to `width` characters. -/
def padLeft (fill : Char) (width : Nat) (s : String) : String :=
  String.mk (List.replicate (width - s.length) fill) ++ s

/-- Year, month and day of the proleptic Gregorian calendar for a number of
days since 1970-01-01. -/
def civilFromDays (days : Int) : Int × Nat × Nat :=
  let z := days + 719468
  let era := z / 146097
  let doe := (z % 146097).toNat
  let yoe := (doe - doe / 1460 + doe / 36524 - doe / 146096) / 365
  let doy := doe - (365 * yoe + yoe / 4 - yoe / 100)
  let mp := (5 * doy + 2) / 153
  let d := doy - (153 * mp + 2) / 5 + 1
  let m := if mp < 10 then mp + 3 else mp - 9
  let y := (yoe : Int) + era * 400 + (if m ≤ 2 then 1 else 0)
  (y, m, d)

/-- The text of `time.Unix(ts.Seconds, ts.Nanos).Format(time.ANSIC)` when the
local time zone is UTC; the layout is `Mon Jan _2 15:04:05 2006`. -/
def ansicUTC (ts : Timestamp) : String :=
  let sec := ts.seconds + ts.nanos / 1000000000
  let days := sec / 86400
  let rest := (sec % 86400).toNat
  let (y, m, d) := civilFromDays days
  let year := (if y < 0 then "-" else "") ++ padLeft '0' 4 (toString y.natAbs)
  weekdayName ((days + 4) % 7).toNat ++ " " ++ monthName m ++ " "
    ++ padLeft ' ' 2 (toString d) ++ " "
    ++ padLeft '0' 2 (toString (rest / 3600)) ++ ":"
    ++ padLeft '0' 2 (toString (rest % 3600 / 60)) ++ ":"
    ++ padLeft '0' 2 (toString (rest % 60)) ++ " " ++ year

/-- The compact protobuf text that `%s` prints for a status pointer: `<nil>`
for nil, nothing for the zero code, else `code:` with the name of the code and
a trailing blank. -/
def compactStatus : Option Status → String
  | none => "<nil>"
  | some st =>
    match st.code with
    | 0 => ""
    | 1 => "code:DEPLOYED "
    | 2 => "code:DELETED "
    | 3 => "code:SUPERSEDED "
    | n => "code:" ++ toString n ++ " "

/-- Collaborators on a machine whose time zone is UTC and whose install client
answers every call with `reply`. -/
def fixedClient (reply : Option InstallReleaseResponse × Option Error) : Collaborators :=
  { InstallRelease := fun _ _ _ => reply
    formatTime := ansicUTC
    statusString := compactStatus }


/-! # Theorems -/

/-! ## Basic facts -/

theorem defaultHost_ne_empty : defaultHost ≠ "" := by decide

theorem print_stdout (w : World) (s : String) : (w.print s).stdout = w.stdout ++ s := rfl

theorem checkArgsLength_one : checkArgsLength 1 1 "chart name" = none := by
  simp [checkArgsLength]

/-- The address that `setupInstallEnv` settles on, written as a function of
the flag value and the environment. -/
theorem setupInstallEnv_tillerHost (getenv : String → String) (w : World) :
    (setupInstallEnv getenv w).tillerHost =
      if w.tillerHost ≠ "" then w.tillerHost
      else if getenv hostEnvVar ≠ "" then getenv hostEnvVar
      else defaultHost := by
  unfold setupInstallEnv
  by_cases hf : w.tillerHost = ""
  · by_cases he : getenv hostEnvVar = "" <;> simp [hf, he]
  · simp [hf]

theorem setupInstallEnv_servAddr (getenv : String → String) (w : World) :
    (setupInstallEnv getenv w).servAddr = (setupInstallEnv getenv w).tillerHost := rfl

theorem setupInstallEnv_tillerHost_ne_empty (getenv : String → String) (w : World) :
    (setupInstallEnv getenv w).tillerHost ≠ "" := by
  rw [setupInstallEnv_tillerHost]
  by_cases hf : w.tillerHost = ""
  · by_cases he : getenv hostEnvVar = ""
    · simp [hf, he, defaultHost_ne_empty]
    · simp [hf, he]
  · simp [hf]

theorem setupInstallEnv_of_flag (getenv : String → String) (w : World)
    (h : w.tillerHost ≠ "") :
    setupInstallEnv getenv w =
      { w with servAddr := w.tillerHost
               servAddrWrites := w.servAddrWrites ++ [w.tillerHost] } := by
  simp [setupInstallEnv, h]


/-! ## Endpoint resolution -/

/-- C2: `setupInstallEnv` resolves the address to the flag value when that is
non-empty, else to the value of `TILLER_HOST` when that is non-empty, else to
`":44134"`; the resolved address (in `tillerHost` and in
`helm.Config.ServAddr`) is never the empty string. -/
theorem setupInstallEnv_precedence (getenv : String → String) (w : World) :
    (setupInstallEnv getenv w).servAddr =
      (if w.tillerHost ≠ "" then w.tillerHost
       else if getenv "TILLER_HOST" ≠ "" then getenv "TILLER_HOST"
       else ":44134") ∧
    (setupInstallEnv getenv w).tillerHost = (setupInstallEnv getenv w).servAddr ∧
    (setupInstallEnv getenv w).servAddr ≠ "" := by
  refine ⟨?_, rfl, ?_⟩
  · rw [setupInstallEnv_servAddr, setupInstallEnv_tillerHost]; rfl
  · rw [setupInstallEnv_servAddr]; exact setupInstallEnv_tillerHost_ne_empty getenv w

/-- C8: running `setupInstallEnv` twice in succession with the same
environment leaves `tillerHost` and `helm.Config.ServAddr` as a single run
leaves them, and each run appends exactly one write to the log of writes to
`helm.Config.ServAddr`. -/
theorem setupInstallEnv_idempotent (getenv : String → String) (w : World) :
    (setupInstallEnv getenv (setupInstallEnv getenv w)).tillerHost =
      (setupInstallEnv getenv w).tillerHost ∧
    (setupInstallEnv getenv (setupInstallEnv getenv w)).servAddr =
      (setupInstallEnv getenv w).servAddr ∧
    (setupInstallEnv getenv w).servAddrWrites =
      w.servAddrWrites ++ [(setupInstallEnv getenv w).servAddr] ∧
    (setupInstallEnv getenv (setupInstallEnv getenv w)).servAddrWrites =
      (setupInstallEnv getenv w).servAddrWrites ++ [(setupInstallEnv getenv w).servAddr] ∧
    (setupInstallEnv getenv w).servAddrWrites.length = w.servAddrWrites.length + 1 ∧
    (setupInstallEnv getenv (setupInstallEnv getenv w)).servAddrWrites.length =
      (setupInstallEnv getenv w).servAddrWrites.length + 1 := by
  have hne := setupInstallEnv_tillerHost_ne_empty getenv w
  have h2 := setupInstallEnv_of_flag getenv (setupInstallEnv getenv w) hne
  refine ⟨?_, ?_, rfl, ?_, ?_, ?_⟩
  · rw [h2]
  · rw [h2]; rfl
  · rw [h2]; rfl
  · simp [setupInstallEnv]
  · rw [h2]; simp

/-- C10 (amended): `setupInstallEnv` overwrites `tillerHost`, so resolution is
sticky: after a run with an empty flag under environment `env1`, a second run
under any environment `env2` resolves to the first run's address (the value of
`TILLER_HOST` in `env1` if non-empty, otherwise `":44134"`).  The second run
does not consult `env2` at all: its outcome is the same for every `env2`, and
its address is the value of `TILLER_HOST` in `env2` only when that value is
already the first run's address. -/
theorem setupInstallEnv_sticky (env1 env2 : String → String) (w : World)
    (h : w.tillerHost = "") :
    (setupInstallEnv env2 (setupInstallEnv env1 w)).tillerHost =
      (if env1 "TILLER_HOST" ≠ "" then env1 "TILLER_HOST" else ":44134") ∧
    (setupInstallEnv env2 (setupInstallEnv env1 w)).servAddr =
      (if env1 "TILLER_HOST" ≠ "" then env1 "TILLER_HOST" else ":44134") ∧
    (setupInstallEnv env1 w).servAddr =
      (if env1 "TILLER_HOST" ≠ "" then env1 "TILLER_HOST" else ":44134") ∧
    (∀ env3 : String → String,
      setupInstallEnv env3 (setupInstallEnv env1 w) =
        setupInstallEnv env2 (setupInstallEnv env1 w)) ∧
    ((setupInstallEnv env2 (setupInstallEnv env1 w)).servAddr = env2 "TILLER_HOST" ↔
      env2 "TILLER_HOST" = (setupInstallEnv env1 w).servAddr) := by
  have hne := setupInstallEnv_tillerHost_ne_empty env1 w
  have h1 : (setupInstallEnv env1 w).tillerHost =
      (if env1 "TILLER_HOST" ≠ "" then env1 "TILLER_HOST" else ":44134") := by
    rw [setupInstallEnv_tillerHost]; simp [h, hostEnvVar, defaultHost]
  have h2 : ∀ e : String → String, setupInstallEnv e (setupInstallEnv env1 w) =
      { setupInstallEnv env1 w with
        servAddr := (setupInstallEnv env1 w).tillerHost
        servAddrWrites :=
          (setupInstallEnv env1 w).servAddrWrites ++ [(setupInstallEnv env1 w).tillerHost] } :=
    fun e => setupInstallEnv_of_flag e (setupInstallEnv env1 w) hne
  refine ⟨?_, ?_, ?_, ?_, ?_⟩
  · rw [h2 env2]; exact h1
  · rw [h2 env2]; exact h1
  · rw [setupInstallEnv_servAddr]; exact h1
  · intro env3; rw [h2 env3, h2 env2]
  · have hsame : (setupInstallEnv env2 (setupInstallEnv env1 w)).servAddr =
        (setupInstallEnv env1 w).servAddr := by
      rw [h2 env2]; rfl
    rw [hsame]
    exact eq_comm

/-- C10 (counterexample): the flag is empty and `TILLER_HOST` is unset on the
first run, then set to `":44134"` for the second run.  The environment has
changed, the first run resolved to the default `":44134"`, and the second run's
address is equal to the second value of `TILLER_HOST`; so "never to e2" does
not hold for every pair of environments. -/
theorem setupInstallEnv_sticky_counterexample :
    freshWorld.tillerHost = "" ∧
    emptyEnv "TILLER_HOST" ≠ envWithHost ":44134" "TILLER_HOST" ∧
    (setupInstallEnv emptyEnv freshWorld).servAddr = ":44134" ∧
    (setupInstallEnv (envWithHost ":44134") (setupInstallEnv emptyEnv freshWorld)).servAddr =
      envWithHost ":44134" "TILLER_HOST" ∧
    (setupInstallEnv (envWithHost ":44134") (setupInstallEnv emptyEnv freshWorld)).tillerHost =
      envWithHost ":44134" "TILLER_HOST" ∧
    ¬ (∀ (env1 env2 : String → String) (w : World), w.tillerHost = "" →
        (setupInstallEnv env2 (setupInstallEnv env1 w)).servAddr ≠ env2 "TILLER_HOST") := by
  refine ⟨rfl, by decide, by decide, by decide, by decide, ?_⟩
  intro hall
  exact hall emptyEnv (envWithHost ":44134") freshWorld rfl (by decide)

theorem setupInstallEnv_sticky_witness :
    freshWorld.tillerHost = "" ∧
    (setupInstallEnv (envWithHost "tiller-b:1")
      (setupInstallEnv (envWithHost "tiller-a:1") freshWorld)).servAddr = "tiller-a:1" :=
  ⟨rfl, by
    have h := (setupInstallEnv_sticky (envWithHost "tiller-a:1") (envWithHost "tiller-b:1")
      freshWorld rfl).2.1
    rw [h]; decide⟩


/-! ## Rendering -/

theorem lineBreaks_append (s t : String) : lineBreaks (s ++ t) = lineBreaks s + lineBreaks t := by
  simp [lineBreaks, String.data_append, List.count_append]

/-- The quiet branch of `printRelease`. -/
theorem printRelease_some_quiet (c : Collaborators) (w : World) (rel : Release)
    (h : w.flagVerbose = false) :
    printRelease c w (some rel) =
      .returned () { w with stdout := w.stdout ++ (rel.name ++ "\n") } := by
  simp [printRelease, h, World.print]

/-- The verbose branch of `printRelease` when no pointer it follows is nil:
`Info`, its `LastDeployed`, `Chart` and the chart `Metadata` are all present.
Four labelled records are appended, in this order. -/
theorem printRelease_some_verbose (c : Collaborators) (w : World) (rel : Release)
    (info : Info) (ts : Timestamp) (chart : Chart) (md : Metadata)
    (hv : w.flagVerbose = true) (hi : rel.info = some info)
    (hl : info.lastDeployed = some ts) (hc : rel.chart = some chart)
    (hm : chart.metadata = some md) :
    printRelease c w (some rel) =
      .returned () { w with stdout := w.stdout
        ++ ("NAME:   " ++ rel.name ++ "\n")
        ++ ("INFO:   " ++ c.formatTime ts ++ " " ++ c.statusString info.status ++ "\n")
        ++ ("CHART:  " ++ md.name ++ " " ++ md.version ++ "\n")
        ++ ("MANIFEST: " ++ rel.manifest ++ "\n") } := by
  simp [printRelease, timeconvString, hv, hi, hl, hc, hm, World.print]

/-- When no field contains a line break, the four records of the verbose branch
have exactly four line breaks. -/
theorem lineBreaks_four_records (name deployed status chartName version manifest : String)
    (h1 : lineBreaks name = 0) (h2 : lineBreaks deployed = 0) (h3 : lineBreaks status = 0)
    (h4 : lineBreaks chartName = 0) (h5 : lineBreaks version = 0)
    (h6 : lineBreaks manifest = 0) :
    lineBreaks (("NAME:   " ++ name ++ "\n")
      ++ ("INFO:   " ++ deployed ++ " " ++ status ++ "\n")
      ++ ("CHART:  " ++ chartName ++ " " ++ version ++ "\n")
      ++ ("MANIFEST: " ++ manifest ++ "\n")) = 4 := by
  have hn : lineBreaks "\n" = 1 := by decide
  have hs : lineBreaks " " = 0 := by decide
  have l1 : lineBreaks "NAME:   " = 0 := by decide
  have l2 : lineBreaks "INFO:   " = 0 := by decide
  have l3 : lineBreaks "CHART:  " = 0 := by decide
  have l4 : lineBreaks "MANIFEST: " = 0 := by decide
  simp only [lineBreaks_append, h1, h2, h3, h4, h5, h6, hn, hs, l1, l2, l3, l4]

/-- The verbose branch of `printRelease` when `Info` is present and its
`LastDeployed` pointer is nil: the `NAME:` record is printed, then
`timeconv.String` panics. -/
theorem printRelease_nil_lastDeployed (c : Collaborators) (w : World) (rel : Release)
    (info : Info) (hv : w.flagVerbose = true) (hi : rel.info = some info)
    (hl : info.lastDeployed = none) :
    printRelease c w (some rel) =
      .panicked { w with stdout := w.stdout ++ ("NAME:   " ++ rel.name ++ "\n") } := by
  simp [printRelease, timeconvString, hv, hi, hl, World.print]

/-- The cases in which `printRelease` does return: a nil release, the verbosity
flag false, or every pointer of the verbose branch non-nil. -/
theorem printRelease_returns (c : Collaborators) (w : World) (rel : Option Release)
    (h : rel = none ∨ w.flagVerbose = false ∨
      ∃ r ts st md, rel = some r ∧ r.info = some { lastDeployed := some ts, status := st } ∧
        r.chart = some { metadata := some md }) :
    ∃ w', printRelease c w rel = .returned () w' := by
  rcases h with h | h | ⟨r, ts, st, md, hr, hi, hc⟩
  · subst h; exact ⟨w, rfl⟩
  · cases rel with
    | none => exact ⟨w, rfl⟩
    | some r => exact ⟨_, printRelease_some_quiet c w r h⟩
  · subst hr
    by_cases hv : w.flagVerbose = true
    · exact ⟨_, printRelease_some_verbose c w r _ ts { metadata := some md } md hv hi rfl hc rfl⟩
    · have hv' : w.flagVerbose = false := by simpa using hv
      exact ⟨_, printRelease_some_quiet c w r hv'⟩

/-- C5: with the verbosity flag false, `printRelease` on a non-nil release
writes exactly the release name followed by one newline, and nothing else; two
releases with the same name give the same outcome, whatever their other
fields. -/
theorem printRelease_quiet (c : Collaborators) (w : World) (rel : Release)
    (h : w.flagVerbose = false) :
    printRelease c w (some rel) =
      .returned () { w with stdout := w.stdout ++ (rel.name ++ "\n") } ∧
    (∀ (c' : Collaborators) (rel' : Release), rel'.name = rel.name →
      printRelease c' w (some rel') = printRelease c w (some rel)) := by
  constructor
  · exact printRelease_some_quiet c w rel h
  · intro c' rel' hname
    rw [printRelease_some_quiet c' w rel' h, printRelease_some_quiet c w rel h, hname]

theorem printRelease_quiet_witness :
    freshWorld.flagVerbose = false ∧
    (printRelease (fixedClient (none, none)) freshWorld (some fullRelease)).world.stdout =
      "myapp\n" :=
  ⟨rfl, by
    rw [(printRelease_quiet (fixedClient (none, none)) freshWorld fullRelease rfl).1]
    decide⟩

/-- C6 (as the code behaves): with the verbosity flag true, `printRelease` on a
non-nil release whose info, chart and chart metadata are present but whose
`Info.LastDeployed` pointer is nil prints the `NAME:` record and then panics in
`timeconv.String`, whatever the collaborators are; the `INFO:`, `CHART:` and
`MANIFEST:` records are never written. -/
theorem printRelease_panics_on_nil_lastDeployed (c : Collaborators) :
    releaseWithoutLastDeployed.info.isSome = true ∧
    (releaseWithoutLastDeployed.chart.bind Chart.metadata).isSome = true ∧
    printRelease c verboseWorld (some releaseWithoutLastDeployed) =
      .panicked { verboseWorld with stdout := "NAME:   myapp\n" } := by
  refine ⟨rfl, rfl, ?_⟩
  rw [printRelease_nil_lastDeployed c verboseWorld releaseWithoutLastDeployed
    { lastDeployed := none, status := some { code := 1 } } rfl rfl rfl]
  decide

/-- With every pointer present, on a machine in UTC, the verbose output for the
sample release is the four records of the spec's example. -/
theorem printRelease_verbose_example :
    (printRelease (fixedClient (none, none)) verboseWorld (some fullRelease)).world.stdout =
      "NAME:   myapp\nINFO:   Thu Jan  1 00:00:00 1970 code:DEPLOYED \n"
        ++ "CHART:  mychart 1.0.0\nMANIFEST: kind: Pod\n" := by
  decide

/-- C9 (as the code behaves): with the verbosity flag true, `printRelease`
panics on a non-nil release whose `Info`, `Chart` or chart `Metadata` pointer
is nil, after having printed the records that precede the nil dereference. -/
theorem printRelease_panics_on_nil_subrecord :
    printRelease (fixedClient (none, none)) verboseWorld (some releaseWithoutInfo) =
      .panicked { verboseWorld with stdout := "NAME:   myapp\n" } ∧
    printRelease (fixedClient (none, none)) verboseWorld (some releaseWithoutChart) =
      .panicked { verboseWorld with
        stdout := "NAME:   myapp\nINFO:   Thu Jan  1 00:00:00 1970 code:DEPLOYED \n" } ∧
    printRelease (fixedClient (none, none)) verboseWorld (some releaseWithoutMetadata) =
      .panicked { verboseWorld with
        stdout := "NAME:   myapp\nINFO:   Thu Jan  1 00:00:00 1970 code:DEPLOYED \n" } := by
  refine ⟨?_, ?_, ?_⟩ <;> decide


/-! ## The install workflow -/

/-- With one argument `runInstall` gets past validation, and what follows is
decided by the answer of `helm.InstallRelease`. -/
theorem runInstall_one_arg (c : Collaborators) (getenv : String → String) (w : World)
    (arg0 : String) :
    runInstall c getenv w [arg0] =
      match c.InstallRelease arg0 w.installDryRun (worldAtDispatch getenv w arg0).servAddr with
      | (_, some err) => .returned (some (prettyError err)) (worldAfterDispatch getenv w arg0)
      | (res, none) =>
        match printRelease c (worldAfterDispatch getenv w arg0) (GetRelease res) with
        | .returned _ w3 => .returned none w3
        | .panicked w3 => .panicked w3 := by
  simp only [runInstall, List.length_singleton, checkArgsLength_one]
  rfl

theorem worldAfterDispatch_stdout (getenv : String → String) (w : World) (arg0 : String) :
    (worldAfterDispatch getenv w arg0).stdout = w.stdout := rfl

theorem worldAfterDispatch_requests (getenv : String → String) (w : World) (arg0 : String) :
    (worldAfterDispatch getenv w arg0).requests =
      w.requests ++ [Request.mk arg0 w.installDryRun (setupInstallEnv getenv w).servAddr] := rfl

theorem printRelease_requests (c : Collaborators) (w : World) (rel : Option Release) :
    (printRelease c w rel).world.requests = w.requests := by
  unfold printRelease
  split
  · rfl
  · split
    · split
      · rfl
      · split
        · rfl
        · split
          · rfl
          · split <;> rfl
    · rfl

/-- Whatever the install client answers, `runInstall` with one argument calls
`helm.InstallRelease` exactly once, with the chart reference `args[0]`, the
dry-run flag, and `helm.Config.ServAddr` equal to the resolved address. -/
theorem runInstall_one_request (c : Collaborators) (getenv : String → String) (w : World)
    (arg0 : String) :
    (runInstall c getenv w [arg0]).world.requests =
      w.requests ++ [Request.mk arg0 w.installDryRun (setupInstallEnv getenv w).servAddr] := by
  rw [runInstall_one_arg]
  split
  · rfl
  · rename_i res _
    have h := printRelease_requests c (worldAfterDispatch getenv w arg0) (GetRelease res)
    cases hp : printRelease c (worldAfterDispatch getenv w arg0) (GetRelease res) with
    | returned v w3 => rw [hp] at h; exact h
    | panicked w3 => rw [hp] at h; exact h


/-! ## Argument validation -/

/-- C1: `runInstall` passes argument validation iff `len(args) = 1`; with zero
or at least two arguments it returns the error of
`checkArgsLength(1, len(args), "chart name")`, an `InvalidArgumentCount`, and
leaves the world untouched: no call of `helm.InstallRelease` was made and
nothing was printed.  With one argument it goes on to the one call of
`helm.InstallRelease`. -/
theorem runInstall_rejects_wrong_arg_count (c : Collaborators) (getenv : String → String)
    (w : World) (args : List String) (h : args.length ≠ 1) :
    (∀ args' : List String,
        checkArgsLength 1 args'.length "chart name" = none ↔ args'.length = 1) ∧
    checkArgsLength 1 args.length "chart name" =
      some (Error.invalidArgumentCount 1 args.length "chart name") ∧
    runInstall c getenv w args =
      .returned (checkArgsLength 1 args.length "chart name") w ∧
    (runInstall c getenv w args).world.requests = w.requests ∧
    (runInstall c getenv w args).world.stdout = w.stdout ∧
    (runInstall c getenv w args).world.servAddrWrites = w.servAddrWrites ∧
    (∀ arg0 : String, (runInstall c getenv w [arg0]).world.requests =
      w.requests ++ [Request.mk arg0 w.installDryRun (setupInstallEnv getenv w).servAddr]) := by
  have hchk : checkArgsLength 1 args.length "chart name" =
      some (Error.invalidArgumentCount 1 args.length "chart name") := by
    simp [checkArgsLength, h]
  have hrun : runInstall c getenv w args =
      .returned (checkArgsLength 1 args.length "chart name") w := by
    simp only [runInstall, hchk]
  refine ⟨?_, hchk, hrun, ?_, ?_, ?_, runInstall_one_request c getenv w⟩
  · intro args'
    by_cases h' : args'.length = 1 <;> simp [checkArgsLength, h']
  · rw [hrun]; rfl
  · rw [hrun]; rfl
  · rw [hrun]; rfl

theorem runInstall_rejects_wrong_arg_count_witness :
    ([] : List String).length ≠ 1 ∧
    runInstall (fixedClient (some { release := some fullRelease }, none)) emptyEnv
      freshWorld [] =
      .returned (checkArgsLength 1 ([] : List String).length "chart name") freshWorld :=
  ⟨by decide,
    (runInstall_rejects_wrong_arg_count
      (fixedClient (some { release := some fullRelease }, none)) emptyEnv
      freshWorld [] (by decide)).2.2.1⟩

/-- When the install client reports no error and rendering returns,
`runInstall` returns nil and leaves the world that rendering left. -/
theorem runInstall_success_of_render (c : Collaborators) (getenv : String → String)
    (w w' : World) (arg0 : String) (res : Option InstallReleaseResponse)
    (h : c.InstallRelease arg0 w.installDryRun (setupInstallEnv getenv w).servAddr = (res, none))
    (hp : printRelease c (worldAfterDispatch getenv w arg0) (GetRelease res) = .returned () w') :
    runInstall c getenv w [arg0] = .returned none w' := by
  have h' : c.InstallRelease arg0 w.installDryRun (worldAtDispatch getenv w arg0).servAddr =
      (res, none) := h
  rw [runInstall_one_arg, h']
  simp only [hp]

/-- C3 (as the code behaves): with one argument, the verbosity flag set, and an
install client that reports success with a release whose `Info` pointer is
nil, `runInstall` makes its one call of `helm.InstallRelease` (chart reference
`args[0]`, the dry-run flag, `helm.Config.ServAddr` the resolved address),
prints the `NAME:` record and then panics instead of returning nil. -/
theorem runInstall_panics_on_nil_info :
    runInstall (fixedClient (some { release := some releaseWithoutInfo }, none)) emptyEnv
      verboseWorld ["mychart"] =
      .panicked { verboseWorld with
        installArg := "mychart"
        tillerHost := ":44134"
        servAddr := ":44134"
        servAddrWrites := [":44134"]
        requests := [{ chart := "mychart", dryRun := false, servAddr := ":44134" }]
        stdout := "NAME:   myapp\n" } := by
  decide

/-- C4: with one argument, if `helm.InstallRelease` returns an error `err`,
`runInstall` returns `prettyError(err)`, a non-nil wrapped error, after exactly
one request; `printRelease` is not reached and standard output is as it was. -/
theorem runInstall_dispatch_error (c : Collaborators) (getenv : String → String) (w : World)
    (arg0 : String) (res : Option InstallReleaseResponse) (err : Error)
    (h : c.InstallRelease arg0 w.installDryRun (setupInstallEnv getenv w).servAddr =
      (res, some err)) :
    runInstall c getenv w [arg0] =
      .returned (some (prettyError err)) (worldAfterDispatch getenv w arg0) ∧
    prettyError err = Error.wrapped err ∧
    (runInstall c getenv w [arg0]).world.stdout = w.stdout ∧
    (runInstall c getenv w [arg0]).world.requests =
      w.requests ++ [Request.mk arg0 w.installDryRun (setupInstallEnv getenv w).servAddr] := by
  have h' : c.InstallRelease arg0 w.installDryRun (worldAtDispatch getenv w arg0).servAddr =
      (res, some err) := h
  have hrun : runInstall c getenv w [arg0] =
      .returned (some (prettyError err)) (worldAfterDispatch getenv w arg0) := by
    rw [runInstall_one_arg, h']
  refine ⟨hrun, rfl, ?_, ?_⟩
  · rw [hrun]; rfl
  · rw [hrun]; rfl

theorem runInstall_dispatch_error_witness :
    (fixedClient (none, some (Error.remote "connection refused"))).InstallRelease "mychart"
        freshWorld.installDryRun (setupInstallEnv emptyEnv freshWorld).servAddr =
      (none, some (Error.remote "connection refused")) ∧
    (runInstall (fixedClient (none, some (Error.remote "connection refused"))) emptyEnv
        freshWorld ["mychart"]).world.stdout = "" :=
  ⟨rfl,
    (runInstall_dispatch_error (fixedClient (none, some (Error.remote "connection refused")))
      emptyEnv freshWorld "mychart" none (Error.remote "connection refused") rfl).2.2.1⟩

/-- C7: for both values of the verbosity flag, `printRelease` on a nil release
returns without writing anything; hence, with one argument, when
`helm.InstallRelease` reports no error and its response carries no release,
`runInstall` returns nil and standard output is as it was. -/
theorem runInstall_nil_release (c : Collaborators) (getenv : String → String) (w : World)
    (arg0 : String) (res : Option InstallReleaseResponse)
    (h : c.InstallRelease arg0 w.installDryRun (setupInstallEnv getenv w).servAddr =
      (res, none))
    (hrel : GetRelease res = none) :
    (∀ verbose : Bool, printRelease c { w with flagVerbose := verbose } none =
      .returned () { w with flagVerbose := verbose }) ∧
    runInstall c getenv w [arg0] = .returned none (worldAfterDispatch getenv w arg0) ∧
    (runInstall c getenv w [arg0]).world.stdout = w.stdout := by
  have hp : printRelease c (worldAfterDispatch getenv w arg0) (GetRelease res) =
      .returned () (worldAfterDispatch getenv w arg0) := by
    rw [hrel]; rfl
  have hrun := runInstall_success_of_render c getenv w _ arg0 res h hp
  refine ⟨fun _ => rfl, hrun, ?_⟩
  rw [hrun]; rfl

theorem runInstall_nil_release_witness :
    (fixedClient (some { release := none }, none)).InstallRelease "mychart"
        verboseWorld.installDryRun (setupInstallEnv emptyEnv verboseWorld).servAddr =
      (some { release := none }, none) ∧
    GetRelease (some { release := none }) = none ∧
    (runInstall (fixedClient (some { release := none }, none)) emptyEnv
        verboseWorld ["mychart"]).world.stdout = "" :=
  ⟨rfl, rfl,
    (runInstall_nil_release (fixedClient (some { release := none }, none)) emptyEnv
      verboseWorld "mychart" (some { release := none }) rfl rfl).2.2⟩

end Helm
